import Mathlib

/-!
# Formal model of GolfTrackerJack's core logic

Shallow embedding, in Lean 4, of the behaviourally interesting parts of the
GolfTrackerJack React Native app:

* the haversine distance utility `calculateDistance`
  (`src/hooks/useNavigation.ts`, lines 136-153);
* the navigation dispatcher `openTurnByTurnNavigation`
  (`src/hooks/useNavigation.ts`, lines 9-134);
* the mock Bluetooth scan lifecycle `startScan` / `simulateDeviceDiscovery` /
  `stopScan` (`src/hooks/useBluetooth.ts`, lines 36-139);
* the scorecard score mutation `updateScore`
  (`src/app/(tabs)/scorecard.tsx`, lines 49-62).

Numeric code is modelled over the real numbers, the exact-arithmetic
idealization of JavaScript's `number`; all other code is modelled with
computable functions over explicit state.  Timer-based asynchrony
(`setTimeout`) is modelled by a pending-timer queue inside the scan state
together with an explicit `runUntil` event-loop step that fires, in schedule
order, every callback whose deadline has elapsed.
-/

open Real

/-- JavaScript's `Math.round`: round to nearest, ties toward positive
infinity (`Math.round x = ⌊x + 0.5⌋`). -/
noncomputable def jsRound (x : ℝ) : ℤ := ⌊x + 1 / 2⌋

/-- JavaScript's `Math.atan2 y x` (real-valued model, by the ECMA-262 case
split on the signs of the arguments). -/
noncomputable def atan2 (y x : ℝ) : ℝ :=
  if 0 < x then arctan (y / x)
  else if x < 0 then
    (if 0 ≤ y then arctan (y / x) + π else arctan (y / x) - π)
  else if 0 < y then π / 2
  else if y < 0 then -(π / 2)
  else 0

/-- `NavigationCoordinate` from `src/hooks/useNavigation.ts`: a latitude /
longitude pair in degrees. -/
structure NavigationCoordinate where
  latitude : ℝ
  longitude : ℝ

/-- The haversine term `a` computed inside `calculateDistance`
(`src/hooks/useNavigation.ts` lines 141-147), written exactly as in the
source: `sin(dLat/2)·sin(dLat/2) + cos(lat1·π/180)·cos(lat2·π/180)·
sin(dLon/2)·sin(dLon/2)`. -/
noncomputable def havTerm (point1 point2 : NavigationCoordinate) : ℝ :=
  let dLat := (point2.latitude - point1.latitude) * π / 180
  let dLon := (point2.longitude - point1.longitude) * π / 180
  Real.sin (dLat / 2) * Real.sin (dLat / 2) +
    Real.cos (point1.latitude * π / 180) * Real.cos (point2.latitude * π / 180) *
      Real.sin (dLon / 2) * Real.sin (dLon / 2)

/-- `calculateDistance` from `src/hooks/useNavigation.ts` lines 136-153
(the same function, verbatim, appears in `src/app/(tabs)/index.tsx` lines
74-85 and `src/unnamed/part_003` lines 171-188): haversine distance with
`R = 6371` km, `c = 2·atan2(√a, √(1-a))`, `distance = R·c·1000`, returned
through `Math.round`. -/
noncomputable def calculateDistance (point1 point2 : NavigationCoordinate) : ℤ :=
  let R : ℝ := 6371
  let a := havTerm point1 point2
  let c := 2 * atan2 (Real.sqrt a) (Real.sqrt (1 - a))
  let distance := R * c * 1000
  jsRound distance

/-- The spec's own description of the algorithm (spec §4.1: "haversine
great-circle distance using Earth radius 6371 km, converted to meters,
rounded to nearest integer via standard rounding"), written independently of
the source in the textbook `2·R·arcsin(√a)` form, for comparison with the
code's `atan2` form in claim C3. -/
noncomputable def distanceMeters_spec (a b : NavigationCoordinate) : ℤ :=
  let phi1 := a.latitude * π / 180
  let phi2 := b.latitude * π / 180
  let lam1 := a.longitude * π / 180
  let lam2 := b.longitude * π / 180
  let hav := Real.sin ((phi2 - phi1) / 2) ^ 2 +
    Real.cos phi1 * Real.cos phi2 * Real.sin ((lam2 - lam1) / 2) ^ 2
  jsRound (2 * 6371 * Real.arcsin (Real.sqrt hav) * 1000)

/-- The haversine term always lies in `[0, 1]`, for arbitrary real inputs
(no latitude-range hypothesis is needed). -/
theorem havTerm_mem_Icc (p1 p2 : NavigationCoordinate) :
    0 ≤ havTerm p1 p2 ∧ havTerm p1 p2 ≤ 1 := by
  set x := p1.latitude * π / 180 with hx
  set y := p2.latitude * π / 180 with hy
  set l := (p2.longitude - p1.longitude) * π / 180 / 2 with hl
  have harg : (p2.latitude - p1.latitude) * π / 180 / 2 = (y - x) / 2 := by
    rw [hx, hy]; ring
  have hunfold : havTerm p1 p2 =
      Real.sin ((y - x) / 2) * Real.sin ((y - x) / 2) +
        Real.cos x * Real.cos y * Real.sin l * Real.sin l := by
    rw [havTerm]
    rw [harg]
  have hsin : Real.sin ((y - x) / 2) * Real.sin ((y - x) / 2) =
      1 / 2 - Real.cos (y - x) / 2 := by
    have h1 : Real.sin ((y - x) / 2) * Real.sin ((y - x) / 2) =
        Real.sin ((y - x) / 2) ^ 2 := by ring
    have h2 := Real.sin_sq_eq_half_sub ((y - x) / 2)
    have h3 : 2 * ((y - x) / 2) = y - x := by ring
    rw [h1, h2, h3]
  have hcoscos : Real.cos x * Real.cos y =
      (Real.cos (x - y) + Real.cos (x + y)) / 2 := by
    rw [Real.cos_sub, Real.cos_add]; ring
  have hcossym : Real.cos (y - x) = Real.cos (x - y) := by
    rw [Real.cos_sub, Real.cos_sub]; ring
  set c1 := Real.cos (x - y) with hc1
  set c2 := Real.cos (x + y) with hc2
  set s := Real.sin l * Real.sin l with hs
  have hsq : s = Real.sin l ^ 2 := by rw [hs]; ring
  have hs0 : 0 ≤ s := by rw [hsq]; exact sq_nonneg _
  have hs1 : s ≤ 1 := by rw [hsq]; exact Real.sin_sq_le_one l
  have hc1a : -1 ≤ c1 := Real.neg_one_le_cos (x - y)
  have hc1b : c1 ≤ 1 := Real.cos_le_one (x - y)
  have hc2a : -1 ≤ c2 := Real.neg_one_le_cos (x + y)
  have hc2b : c2 ≤ 1 := Real.cos_le_one (x + y)
  have hval : havTerm p1 p2 = ((1 - c1) * (1 - s) + (1 + c2) * s) / 2 := by
    rw [hunfold, hsin, hcossym, hcoscos]
    ring
  constructor
  · rw [hval]
    have t1 : 0 ≤ (1 - c1) * (1 - s) := by
      apply mul_nonneg <;> linarith
    have t2 : 0 ≤ (1 + c2) * s := by
      apply mul_nonneg <;> linarith
    linarith
  · rw [hval]
    have t1 : 0 ≤ (1 + c1) * (1 - s) := by
      apply mul_nonneg <;> linarith
    have t2 : 0 ≤ (1 - c2) * s := by
      apply mul_nonneg <;> linarith
    nlinarith [t1, t2]

/-- For `a ∈ [0, 1]`, the code's `atan2(√a, √(1-a))` equals the textbook
haversine central half-angle `arcsin(√a)`. -/
theorem atan2_sqrt_eq_arcsin {a : ℝ} (h0 : 0 ≤ a) (h1 : a ≤ 1) :
    atan2 (Real.sqrt a) (Real.sqrt (1 - a)) = Real.arcsin (Real.sqrt a) := by
  rcases lt_or_eq_of_le h1 with hlt | heq
  · have hxpos : 0 < Real.sqrt (1 - a) := Real.sqrt_pos.mpr (by linarith)
    have hroot : Real.sqrt a < 1 := by
      rw [Real.sqrt_lt' one_pos]
      nlinarith
    have hmem : Real.sqrt a ∈ Set.Ioo (-(1 : ℝ)) 1 :=
      ⟨lt_of_lt_of_le (by norm_num) (Real.sqrt_nonneg a), hroot⟩
    have hsq : Real.sqrt a ^ 2 = a := Real.sq_sqrt h0
    rw [atan2, if_pos hxpos, Real.arcsin_eq_arctan hmem, hsq]
  · subst heq
    have hzero : Real.sqrt (1 - 1) = 0 := by norm_num [Real.sqrt_zero]
    rw [atan2, hzero]
    simp [Real.sqrt_one, Real.arcsin_one]

/-- Claim C3: for every pair of coordinates, the code's `calculateDistance`
(atan2 form) equals the spec's haversine great-circle distance with Earth
radius 6371 km, converted to meters and rounded to nearest by standard
rounding (arcsin form, `distanceMeters_spec`). -/
theorem calculateDistance_eq_spec_haversine (a b : NavigationCoordinate) :
    calculateDistance a b = distanceMeters_spec a b := by
  obtain ⟨h0, h1⟩ := havTerm_mem_Icc a b
  have hc := atan2_sqrt_eq_arcsin h0 h1
  have hhav : Real.sin ((b.latitude * π / 180 - a.latitude * π / 180) / 2) ^ 2 +
      Real.cos (a.latitude * π / 180) * Real.cos (b.latitude * π / 180) *
        Real.sin ((b.longitude * π / 180 - a.longitude * π / 180) / 2) ^ 2 =
      havTerm a b := by
    rw [havTerm]
    have e1 : (b.latitude * π / 180 - a.latitude * π / 180) / 2 =
        (b.latitude - a.latitude) * π / 180 / 2 := by ring
    have e2 : (b.longitude * π / 180 - a.longitude * π / 180) / 2 =
        (b.longitude - a.longitude) * π / 180 / 2 := by ring
    rw [e1, e2]; ring
  simp only [calculateDistance, distanceMeters_spec]
  rw [hhav, hc]
  congr 1
  ring

/-- Claim C7: `calculateDistance` is symmetric in its two arguments. -/
theorem calculateDistance_symm (a b : NavigationCoordinate) :
    calculateDistance a b = calculateDistance b a := by
  have hsym : havTerm a b = havTerm b a := by
    rw [havTerm, havTerm]
    have e1 : (a.latitude - b.latitude) * π / 180 / 2 =
        -((b.latitude - a.latitude) * π / 180 / 2) := by ring
    have e2 : (a.longitude - b.longitude) * π / 180 / 2 =
        -((b.longitude - a.longitude) * π / 180 / 2) := by ring
    rw [e1, e2, Real.sin_neg, Real.sin_neg]
    ring
  simp only [calculateDistance]
  rw [hsym]

/-- Claim C8: `calculateDistance a a = 0` for every coordinate `a`. -/
theorem calculateDistance_self (a : NavigationCoordinate) :
    calculateDistance a a = 0 := by
  have hhav : havTerm a a = 0 := by
    rw [havTerm]
    have e1 : (a.latitude - a.latitude) * π / 180 / 2 = 0 := by ring
    have e2 : (a.longitude - a.longitude) * π / 180 / 2 = 0 := by ring
    rw [e1, e2, Real.sin_zero]
    ring
  have hatan : atan2 (Real.sqrt 0) (Real.sqrt (1 - 0)) = 0 := by
    rw [atan2]
    norm_num [Real.sqrt_zero, Real.sqrt_one, Real.arctan_zero]
  simp only [calculateDistance, hhav]
  rw [hatan]
  simp only [jsRound]
  norm_num

/-- Claim C9: one degree of longitude at the equator:
`calculateDistance {0,0} {0,1} = 111195` meters exactly. -/
theorem calculateDistance_equator_one_degree :
    calculateDistance ⟨0, 0⟩ ⟨0, 1⟩ = 111195 := by
  have hpi := Real.pi_pos
  have hs_nonneg : 0 ≤ Real.sin (π / 360) :=
    Real.sin_nonneg_of_nonneg_of_le_pi (by positivity) (by linarith)
  have hc_pos : 0 < Real.cos (π / 360) :=
    Real.cos_pos_of_mem_Ioo ⟨by linarith, by linarith⟩
  have hhav : havTerm ⟨0, 0⟩ ⟨0, 1⟩ = Real.sin (π / 360) * Real.sin (π / 360) := by
    rw [havTerm]
    have e0 : ((0 : ℝ) - 0) * π / 180 / 2 = 0 := by ring
    have e1 : ((1 : ℝ) - 0) * π / 180 / 2 = π / 360 := by ring
    have e2 : (0 : ℝ) * π / 180 = 0 := by ring
    simp only
    rw [e0, e1, e2, Real.sin_zero, Real.cos_zero]
    ring
  have hsqrt_a :
      Real.sqrt (Real.sin (π / 360) * Real.sin (π / 360)) = Real.sin (π / 360) := by
    rw [show Real.sin (π / 360) * Real.sin (π / 360) = Real.sin (π / 360) ^ 2 by ring,
      Real.sqrt_sq hs_nonneg]
  have h1a : (1 : ℝ) - Real.sin (π / 360) * Real.sin (π / 360) =
      Real.cos (π / 360) ^ 2 := by
    have hpc := Real.sin_sq_add_cos_sq (π / 360)
    nlinarith [hpc]
  have hsqrt_b :
      Real.sqrt (1 - Real.sin (π / 360) * Real.sin (π / 360)) = Real.cos (π / 360) := by
    rw [h1a, Real.sqrt_sq (le_of_lt hc_pos)]
  have hatan : atan2 (Real.sin (π / 360)) (Real.cos (π / 360)) = π / 360 := by
    rw [atan2, if_pos hc_pos, ← Real.tan_eq_sin_div_cos,
      Real.arctan_tan (by linarith) (by linarith)]
  simp only [calculateDistance]
  rw [hhav, hsqrt_a, hsqrt_b, hatan]
  simp only [jsRound]
  rw [Int.floor_eq_iff]
  constructor
  · have hlow := Real.pi_gt_d6
    push_cast
    nlinarith [hlow]
  · have hhigh := Real.pi_lt_d6
    push_cast
    nlinarith [hhigh]

/-- `BluetoothDevice` from `src/hooks/useBluetooth.ts` lines 4-13 (the
optional `advertising` payload is never set by the demo path and is
omitted). -/
structure BluetoothDevice where
  id : String
  name : String
  rssi : Int
deriving DecidableEq

/-- A pending `setTimeout` callback scheduled by `simulateDeviceDiscovery`:
either one staggered discovery callback (lines 117-127) or the final
auto-stop callback (lines 130-133). -/
inductive TimerAction where
  | discover (device : BluetoothDevice)
  | endScan
deriving DecidableEq

/-- The state held by the `useBluetooth` hook (lines 16-19), together with
the queue of pending timers, each tagged with its absolute deadline in
milliseconds. -/
structure ScanState where
  isScanning : Bool
  devices : List BluetoothDevice
  scanError : Option String
  timers : List (Nat × TimerAction)
deriving DecidableEq

/-- The canned `demoDevices` table from `src/hooks/useBluetooth.ts`
lines 73-114 (N = 8 records). -/
def demoDevices : List BluetoothDevice :=
  [⟨"demo-phone-1", "iPhone 15 Pro", -42⟩,
   ⟨"demo-watch-1", "Apple Watch Series 9", -55⟩,
   ⟨"demo-headphones-1", "AirPods Pro", -38⟩,
   ⟨"demo-phone-2", "Galaxy S24 Ultra", -52⟩,
   ⟨"demo-headphones-2", "Sony WH-1000XM5", -48⟩,
   ⟨"demo-watch-2", "Garmin Approach S70", -61⟩,
   ⟨"demo-golf-1", "Smart Golf Ball Pro", -67⟩,
   ⟨"demo-golf-2", "Titleist Smart Ball", -58⟩]

/-- The body of each scheduled callback.  A discovery callback runs
`setDevices(prev => prev.find(d => d.id === device.id) ? prev : [...prev,
device])` (lines 119-125): append unless a device with the same id is
already present.  The auto-stop callback runs `setIsScanning(false)`
(lines 130-133).  Note that neither callback checks whether the scan is
still running. -/
def fireAction : TimerAction → ScanState → ScanState
  | .discover device, s =>
    if s.devices.any (fun d => d.id == device.id) then s
    else { s with devices := s.devices ++ [device] }
  | .endScan, s => { s with isScanning := false }

/-- `simulateDeviceDiscovery` from `src/hooks/useBluetooth.ts` lines 68-134:
sets `isScanning := true`, clears the device list and the scan error, and
schedules one discovery callback per demo device at `(index + 1) * 800` ms
plus the auto-stop callback at `length * 800 + 1000` ms. -/
def simulateDeviceDiscovery (s : ScanState) : ScanState :=
  { s with
    isScanning := true
    devices := []
    scanError := none
    timers := s.timers ++
      (demoDevices.enum.map fun p => ((p.1 + 1) * 800, TimerAction.discover p.2)) ++
      [(demoDevices.length * 800 + 1000, TimerAction.endScan)] }

/-- `startScan` from `src/hooks/useBluetooth.ts` lines 36-66 (state effects
only; the alerts it shows carry no hook state).  The guard `if (isScanning)
return;` makes it a no-op while a scan is running; otherwise it resets
`scanError` and, on web, records the unsupported-platform error.  The demo
discovery itself only starts when the user taps "Show Demo", which invokes
`simulateDeviceDiscovery`.  The `startScan` of the later revision at lines
424-442 carries the identical `if (isScanning) return;` guard. -/
def startScan (platform : String) (s : ScanState) : ScanState :=
  if s.isScanning then s
  else if platform == "web" then
    { s with scanError := some "Bluetooth scanning not available on web platform" }
  else { s with scanError := none }

/-- `stopScan` from `src/hooks/useBluetooth.ts` lines 136-139: it sets
`isScanning := false` and nothing else — in particular it does not cancel
any pending timer. -/
def stopScan (s : ScanState) : ScanState := { s with isScanning := false }

/-- The single-threaded event loop, advanced to absolute time `now`: every
pending callback whose deadline has passed fires, in schedule order; the
rest stay queued. -/
def runUntil (now : Nat) (s : ScanState) : ScanState :=
  (s.timers.filter fun e => e.1 ≤ now).foldl (fun st e => fireAction e.2 st)
    { s with timers := s.timers.filter fun e => now < e.1 }

/-- The `Idle` state of the spec's scan lifecycle (§4.3): not scanning and
no pending discovery timers. -/
def Idle (s : ScanState) : Prop := s.isScanning = false ∧ s.timers = []

/-- The initial hook state (`useState(false)`, `useState([])`,
`useState(null)`, nothing scheduled). -/
def idleInit : ScanState := ⟨false, [], none, []⟩

lemma filter_true_of_all {α : Type} (p : α → Bool) (l : List α)
    (h : ∀ e ∈ l, p e = true) : l.filter p = l :=
  List.filter_eq_self.mpr h

lemma filter_false_of_all {α : Type} (p : α → Bool) (l : List α)
    (h : ∀ e ∈ l, p e = false) : l.filter p = [] := by
  induction l with
  | nil => rfl
  | cons a l ih =>
    have ha := h a (List.mem_cons_self a l)
    simp only [List.filter_cons, ha, cond_false]
    exact ih fun e he => h e (List.mem_cons_of_mem _ he)

/-- The discovery timers scheduled by `simulateDeviceDiscovery`, as a
concrete table: deadlines 800, 1600, ..., 6400 ms. -/
def demoDiscoverTimers : List (Nat × TimerAction) :=
  demoDevices.enum.map fun p => ((p.1 + 1) * 800, TimerAction.discover p.2)

/-- Claim C5: calling `startScan()` while a scan is in progress is a no-op:
the state (device list included) is returned unchanged, so `isScanning`
stays `true` and the in-progress device list is neither reset nor
duplicated. -/
theorem startScan_noop_when_scanning (platform : String) (s : ScanState)
    (h : s.isScanning = true) : startScan platform s = s := by
  simp [startScan, h]

/-- Witness for C5: a concrete mid-scan state is returned unchanged. -/
theorem startScan_noop_when_scanning_witness :
    (ScanState.mk true [⟨"demo-phone-1", "iPhone 15 Pro", -42⟩] none
        [(1600, TimerAction.discover ⟨"demo-watch-1", "Apple Watch Series 9", -55⟩)]).isScanning
      = true ∧
    startScan "ios"
        (ScanState.mk true [⟨"demo-phone-1", "iPhone 15 Pro", -42⟩] none
          [(1600, TimerAction.discover ⟨"demo-watch-1", "Apple Watch Series 9", -55⟩)]) =
      ScanState.mk true [⟨"demo-phone-1", "iPhone 15 Pro", -42⟩] none
        [(1600, TimerAction.discover ⟨"demo-watch-1", "Apple Watch Series 9", -55⟩)] :=
  ⟨rfl, startScan_noop_when_scanning "ios" _ rfl⟩

/-- Claim C4: for every scan started from `Idle`, once the elapsed time is
at least `N * d = 8 * 800` ms, the discovered list is exactly the canned
table `demoDevices`, whose 8 ids are pairwise distinct — so every id occurs
exactly once, none missing, none duplicated. -/
theorem scan_elapsed_all_devices_once (s : ScanState) (T : Nat)
    (hIdle : Idle s) (hT : 8 * 800 ≤ T) :
    (runUntil T (simulateDeviceDiscovery s)).devices = demoDevices ∧
      (demoDevices.map fun d => d.id).Nodup := by
  rcases s with ⟨si, sd, se, st⟩
  obtain ⟨hscan, htimers⟩ := hIdle
  have hst : st = [] := htimers
  subst hst
  refine ⟨?_, by decide⟩
  have hsim : simulateDeviceDiscovery (ScanState.mk si sd se []) =
      ScanState.mk true [] none
        (demoDiscoverTimers ++ [(7400, TimerAction.endScan)]) := rfl
  rw [hsim, runUntil]
  have hd6400 : ∀ e ∈ demoDiscoverTimers, e.1 ≤ 6400 := by decide
  have hdT : ∀ e ∈ demoDiscoverTimers, (decide (e.1 ≤ T)) = true := by
    intro e he
    exact decide_eq_true (le_trans (hd6400 e he) (by omega))
  have hdTgt : ∀ e ∈ demoDiscoverTimers, (decide (T < e.1)) = false := by
    intro e he
    exact decide_eq_false (Nat.not_lt.mpr (le_trans (hd6400 e he) (by omega)))
  by_cases hT7 : 7400 ≤ T
  · have hallT : ∀ e ∈ demoDiscoverTimers ++ [(7400, TimerAction.endScan)],
        (decide (e.1 ≤ T)) = true := by
      intro e he
      rcases List.mem_append.mp he with h | h
      · exact hdT e h
      · simp only [List.mem_singleton] at h
        subst h
        exact decide_eq_true hT7
    have hallTgt : ∀ e ∈ demoDiscoverTimers ++ [(7400, TimerAction.endScan)],
        (decide (T < e.1)) = false := by
      intro e he
      rcases List.mem_append.mp he with h | h
      · exact hdTgt e h
      · simp only [List.mem_singleton] at h
        subst h
        exact decide_eq_false (Nat.not_lt.mpr hT7)
    rw [filter_true_of_all _ _ hallT, filter_false_of_all _ _ hallTgt]
    decide
  · rw [List.filter_append, List.filter_append]
    rw [filter_true_of_all _ _ hdT, filter_false_of_all _ _ hdTgt]
    have h1 : ([((7400 : Nat), TimerAction.endScan)].filter fun e => e.1 ≤ T) = [] := by
      apply filter_false_of_all
      intro e he
      simp only [List.mem_singleton] at he
      subst he
      exact decide_eq_false (by omega)
    have h2 : ([((7400 : Nat), TimerAction.endScan)].filter fun e => T < e.1) =
        [(7400, TimerAction.endScan)] := by
      apply filter_true_of_all
      intro e he
      simp only [List.mem_singleton] at he
      subst he
      exact decide_eq_true (by omega)
    rw [h1, h2]
    decide

/-- Witness for C4: at `T = 6400` from the initial hook state, all eight
demo devices have been appended exactly once. -/
theorem scan_elapsed_all_devices_once_witness :
    Idle idleInit ∧ 8 * 800 ≤ 6400 ∧
    ((runUntil 6400 (simulateDeviceDiscovery idleInit)).devices = demoDevices ∧
      (demoDevices.map fun d => d.id).Nodup) :=
  ⟨⟨rfl, rfl⟩, by omega, scan_elapsed_all_devices_once idleInit 6400 ⟨rfl, rfl⟩ (by omega)⟩

/-- Claim C1 concerns the code's behaviour after `stopScan()`: the claim
(and spec §5/§8) requires that a discovery callback scheduled before the
stop never mutates the device list afterward.  The code violates this:
`stopScan` only flips `isScanning` and cancels nothing, so the callback
scheduled at 800 ms still appends its device after the stop.  This theorem
evaluates the code at the failing input: scan started from the initial
state, `stopScan()` called immediately (time 0), event loop run to 800 ms —
the device list has been mutated from `[]` to one appended record even
though scanning was already off. -/
theorem stopScan_pending_callback_mutates :
    (stopScan (simulateDeviceDiscovery idleInit)).devices = [] ∧
    (runUntil 800 (stopScan (simulateDeviceDiscovery idleInit))).isScanning = false ∧
    (runUntil 800 (stopScan (simulateDeviceDiscovery idleInit))).devices =
      [⟨"demo-phone-1", "iPhone 15 Pro", -42⟩] := by
  refine ⟨rfl, ?_, ?_⟩ <;> decide

/-- Platform discriminator for `Platform.OS` in `react-native`. -/
inductive Platform where
  | ios
  | android
  | web
deriving DecidableEq

/-- Observable outcome of `openTurnByTurnNavigation`: either the success
alert (with the app name that was opened) or the terminal
"Navigation Error" alert body. -/
inductive NavOutcome where
  | started (appName : String)
  | failed (message : String)
deriving DecidableEq

/-- Result of a navigation dispatch: the ordered trace of URLs passed to
`Linking.openURL` / `window.open`, and the user-visible outcome. -/
structure NavResult where
  attempts : List String
  outcome : NavOutcome
deriving DecidableEq

/-- Apple Maps deep link (`src/hooks/useNavigation.ts` line 23). -/
def appleMapsUrl (lat lon : String) : String :=
  "maps://?daddr=" ++ lat ++ "," ++ lon ++ "&dirflg=w&t=m"

/-- Google Maps app deep link (line 39). -/
def googleMapsAppUrl (lat lon : String) : String :=
  "comgooglemaps://?daddr=" ++ lat ++ "," ++ lon ++ "&directionsmode=walking"

/-- Google Maps navigation intent (line 56). -/
def googleNavUrl (lat lon : String) : String :=
  "google.navigation:q=" ++ lat ++ "," ++ lon ++ "&mode=w"

/-- Generic geo intent (line 72); `enc` models `encodeURIComponent`. -/
def geoUrl (enc : String → String) (lat lon destinationName : String) : String :=
  "geo:" ++ lat ++ "," ++ lon ++ "?q=" ++ lat ++ "," ++ lon ++ "(" ++
    enc destinationName ++ ")"

/-- The unconditional web fallback URL (line 90). -/
def webFallbackUrl (lat lon : String) : String :=
  "https://maps.google.com/maps?daddr=" ++ lat ++ "," ++ lon ++ "&dirflg=w&nav=1"

/-- Body of the terminal "Navigation Error" alert (lines 122-132),
containing the raw coordinate pair for manual entry. -/
def navErrorMessage (destinationName lat lon : String) : String :=
  ("Unable to start automatic navigation to " ++ destinationName ++
      ".\n\nManual coordinates:\n") ++
    (lat ++ ", " ++ lon) ++
    "\n\nPlease open your maps app and enter these coordinates manually."

/-- `openTurnByTurnNavigation` from `src/hooks/useNavigation.ts` lines
9-134.  Coordinates enter the URLs only through their JavaScript decimal
rendering, so they are modelled as the strings `lat`, `lon`.  The runtime
seams are `canOpen` (`Linking.canOpenURL`, with a throw behaving as
`false` since the catch only logs) and `openOk` (whether
`Linking.openURL` / `window.open` completes without throwing).  Each
platform branch tries its two candidates in order inside try/catch: a
candidate is opened iff `canOpen` holds for it, and a throwing open leaves
`success` false; afterwards, if still unsuccessful, the web fallback is
opened unconditionally, and if that open throws, the outer catch shows the
terminal error alert. -/
def openTurnByTurnNavigation (platform : Platform) (canOpen openOk : String → Bool)
    (enc : String → String) (lat lon destinationName : String) : NavResult :=
  let candidatePhase : List String × Bool × String :=
    match platform with
    | .ios =>
      let u1 := appleMapsUrl lat lon
      if canOpen u1 && openOk u1 then ([u1], true, "Apple Maps")
      else
        let a1 : List String := if canOpen u1 then [u1] else []
        let u2 := googleMapsAppUrl lat lon
        if canOpen u2 && openOk u2 then (a1 ++ [u2], true, "Google Maps")
        else
          let a2 : List String := if canOpen u2 then [u2] else []
          (a1 ++ a2, false, "")
    | .android =>
      let u1 := googleNavUrl lat lon
      if canOpen u1 && openOk u1 then ([u1], true, "Google Maps")
      else
        let a1 : List String := if canOpen u1 then [u1] else []
        let u2 := geoUrl enc lat lon destinationName
        if canOpen u2 && openOk u2 then (a1 ++ [u2], true, "Maps")
        else
          let a2 : List String := if canOpen u2 then [u2] else []
          (a1 ++ a2, false, "")
    | .web => ([], false, "")
  match candidatePhase with
  | (atts, true, appName) => { attempts := atts, outcome := .started appName }
  | (atts, false, _) =>
    let w := webFallbackUrl lat lon
    if openOk w then
      { attempts := atts ++ [w], outcome := .started "Google Maps (Web)" }
    else
      { attempts := atts ++ [w],
        outcome := .failed (navErrorMessage destinationName lat lon) }

/-- The platform-defined candidate order (native map app first, secondary
app second; empty on web), spec §4.2/§6. -/
def navCandidates (platform : Platform) (enc : String → String)
    (lat lon destinationName : String) : List String :=
  match platform with
  | .ios => [appleMapsUrl lat lon, googleMapsAppUrl lat lon]
  | .android => [googleNavUrl lat lon, geoUrl enc lat lon destinationName]
  | .web => []

/-- Claim C2: when opening does not throw, the dispatcher opens exactly one
URL — the first candidate in the platform-defined order for which `canOpen`
is true, and the unconditional web fallback when no candidate passes — then
stops. -/
theorem openTurnByTurnNavigation_first_candidate (platform : Platform)
    (canOpen openOk : String → Bool) (enc : String → String)
    (lat lon destinationName : String)
    (hopen : ∀ u, openOk u = true) :
    (openTurnByTurnNavigation platform canOpen openOk enc lat lon
        destinationName).attempts =
      [((navCandidates platform enc lat lon destinationName).find? canOpen).getD
        (webFallbackUrl lat lon)] := by
  cases platform
  · by_cases h1 : canOpen (appleMapsUrl lat lon)
    · simp [openTurnByTurnNavigation, navCandidates, h1, hopen, List.find?]
    · by_cases h2 : canOpen (googleMapsAppUrl lat lon) <;>
        simp [openTurnByTurnNavigation, navCandidates, h1, h2, hopen, List.find?]
  · by_cases h1 : canOpen (googleNavUrl lat lon)
    · simp [openTurnByTurnNavigation, navCandidates, h1, hopen, List.find?]
    · by_cases h2 : canOpen (geoUrl enc lat lon destinationName) <;>
        simp [openTurnByTurnNavigation, navCandidates, h1, h2, hopen, List.find?]
  · simp [openTurnByTurnNavigation, navCandidates, hopen, List.find?]

/-- Witness for C2: on iOS with Apple Maps unavailable and the Google Maps
app available, exactly the Google Maps deep link is opened. -/
theorem openTurnByTurnNavigation_first_candidate_witness :
    (∀ u : String, (fun _ : String => true) u = true) ∧
    (openTurnByTurnNavigation .ios
        (fun u => u == googleMapsAppUrl "37.7749" "-122.4194")
        (fun _ => true) (fun s => s) "37.7749" "-122.4194" "Ball").attempts =
      [((navCandidates .ios (fun s => s) "37.7749" "-122.4194" "Ball").find?
          (fun u => u == googleMapsAppUrl "37.7749" "-122.4194")).getD
        (webFallbackUrl "37.7749" "-122.4194")] :=
  ⟨fun _ => rfl,
    openTurnByTurnNavigation_first_candidate .ios _ _ _ _ _ _ (fun _ => rfl)⟩

/-- Claim C6: if every open throws — in particular the unconditional web
fallback — the dispatcher's trace is the passing candidates followed by the
web fallback as its single, final entry (nothing is retried after it), and
the outcome is the user-visible error alert whose text contains the raw
`lat, lon` pair for manual entry. -/
theorem openTurnByTurnNavigation_terminal_fallback (platform : Platform)
    (canOpen openOk : String → Bool) (enc : String → String)
    (lat lon destinationName : String)
    (hfail : ∀ u, openOk u = false) :
    (openTurnByTurnNavigation platform canOpen openOk enc lat lon
        destinationName).attempts =
      (navCandidates platform enc lat lon destinationName).filter canOpen ++
        [webFallbackUrl lat lon] ∧
    (openTurnByTurnNavigation platform canOpen openOk enc lat lon
        destinationName).outcome =
      NavOutcome.failed (navErrorMessage destinationName lat lon) ∧
    ∃ before after, navErrorMessage destinationName lat lon =
      before ++ (lat ++ ", " ++ lon) ++ after := by
  refine ⟨?_, ?_, ?_⟩
  · cases platform
    · by_cases h1 : canOpen (appleMapsUrl lat lon) <;>
        by_cases h2 : canOpen (googleMapsAppUrl lat lon) <;>
        simp [openTurnByTurnNavigation, navCandidates, h1, h2, hfail,
          List.filter]
    · by_cases h1 : canOpen (googleNavUrl lat lon) <;>
        by_cases h2 : canOpen (geoUrl enc lat lon destinationName) <;>
        simp [openTurnByTurnNavigation, navCandidates, h1, h2, hfail,
          List.filter]
    · simp [openTurnByTurnNavigation, navCandidates, hfail, List.filter]
  · cases platform
    · by_cases h1 : canOpen (appleMapsUrl lat lon) <;>
        by_cases h2 : canOpen (googleMapsAppUrl lat lon) <;>
        simp [openTurnByTurnNavigation, h1, h2, hfail]
    · by_cases h1 : canOpen (googleNavUrl lat lon) <;>
        by_cases h2 : canOpen (geoUrl enc lat lon destinationName) <;>
        simp [openTurnByTurnNavigation, h1, h2, hfail]
    · simp [openTurnByTurnNavigation, hfail]
  · exact ⟨"Unable to start automatic navigation to " ++ destinationName ++
      ".\n\nManual coordinates:\n",
      "\n\nPlease open your maps app and enter these coordinates manually.",
      rfl⟩

/-- Witness for C6: on Android with both candidates passing `canOpen` but
every open throwing, the trace ends at the web fallback and the error alert
carries the coordinates. -/
theorem openTurnByTurnNavigation_terminal_fallback_witness :
    (∀ u : String, (fun _ : String => false) u = false) ∧
    ((openTurnByTurnNavigation .android (fun _ => true) (fun _ => false)
          (fun s => s) "37.7749" "-122.4194" "Device Location").attempts =
        (navCandidates .android (fun s => s) "37.7749" "-122.4194"
            "Device Location").filter (fun _ => true) ++
          [webFallbackUrl "37.7749" "-122.4194"] ∧
      (openTurnByTurnNavigation .android (fun _ => true) (fun _ => false)
          (fun s => s) "37.7749" "-122.4194" "Device Location").outcome =
        NavOutcome.failed
          (navErrorMessage "Device Location" "37.7749" "-122.4194") ∧
      ∃ before after, navErrorMessage "Device Location" "37.7749" "-122.4194" =
        before ++ ("37.7749" ++ ", " ++ "-122.4194") ++ after) :=
  ⟨fun _ => rfl,
    openTurnByTurnNavigation_terminal_fallback .android _ _ _ _ _ _
      (fun _ => rfl)⟩

/-- `Player` from `src/app/(tabs)/scorecard.tsx` lines 6-10: per-hole
strokes as an integer array. -/
structure Player where
  id : String
  name : String
  scores : List Int
deriving DecidableEq

/-- `updateScore` from `src/app/(tabs)/scorecard.tsx` lines 49-62: map over
the players; for the player whose id matches, map over the scores replacing
the entry at `holeIndex` with `Math.max(0, score + change)`. -/
def updateScore (players : List Player) (playerId : String) (holeIndex : Nat)
    (change : Int) : List Player :=
  players.map fun player =>
    if player.id == playerId then
      { player with
        scores := player.scores.mapIdx fun index score =>
          if index == holeIndex then max 0 (score + change) else score }
    else player

/-- Claim C10: `updateScore` keeps every per-hole score non-negative — if
all scores are `≥ 0` before the update they all are afterwards, for any
(possibly negative) `change` — and the targeted entry becomes
`max 0 (old + change)`. -/
theorem updateScore_scores_nonneg (players : List Player) (playerId : String)
    (holeIndex : Nat) (change : Int)
    (h : ∀ p ∈ players, ∀ s ∈ p.scores, 0 ≤ s) :
    (∀ p ∈ updateScore players playerId holeIndex change,
        ∀ s ∈ p.scores, 0 ≤ s) ∧
    (∀ (j : Nat) (p : Player), players[j]? = some p → p.id = playerId →
      ∀ s : Int, p.scores[holeIndex]? = some s →
        ∃ q : Player,
          (updateScore players playerId holeIndex change)[j]? = some q ∧
          q.scores[holeIndex]? = some (max 0 (s + change))) := by
  constructor
  · intro p hp
    simp only [updateScore, List.mem_map] at hp
    obtain ⟨q, hqmem, hqeq⟩ := hp
    intro s hs
    rw [← hqeq] at hs
    by_cases hid : (q.id == playerId) = true
    · rw [if_pos hid] at hs
      obtain ⟨n, hn⟩ := List.mem_iff_getElem?.mp hs
      rw [List.getElem?_mapIdx] at hn
      cases ho : q.scores[n]? with
      | none => rw [ho] at hn; simp at hn
      | some s0 =>
        rw [ho, Option.map_some'] at hn
        have hs0 : 0 ≤ s0 := h q hqmem s0 (List.getElem?_mem ho)
        have hn2 := Option.some.inj hn
        by_cases hidx : (n == holeIndex) = true
        · rw [if_pos hidx] at hn2
          rw [← hn2]
          exact le_max_left 0 _
        · rw [if_neg hidx] at hn2
          rw [← hn2]
          exact hs0
    · rw [if_neg hid] at hs
      exact h q hqmem s hs
  · intro j p hj hid s hsc
    refine ⟨{ p with scores := p.scores.mapIdx fun index score =>
        if index == holeIndex then max 0 (score + change) else score }, ?_, ?_⟩
    · simp only [updateScore, List.getElem?_map, hj, Option.map_some']
      rw [if_pos (beq_iff_eq.mpr hid)]
    · show (p.scores.mapIdx fun index score =>
        if index == holeIndex then max 0 (score + change) else score)[holeIndex]? =
          some (max 0 (s + change))
      rw [List.getElem?_mapIdx, hsc, Option.map_some']
      simp

/-- Witness for C10: subtracting 5 strokes from a score of 2 clamps the
entry to 0 and every score stays non-negative. -/
theorem updateScore_scores_nonneg_witness :
    (∀ p ∈ [Player.mk "1" "You" [2, 3]], ∀ s ∈ p.scores, 0 ≤ s) ∧
    ((∀ p ∈ updateScore [Player.mk "1" "You" [2, 3]] "1" 0 (-5),
        ∀ s ∈ p.scores, 0 ≤ s) ∧
      (∀ (j : Nat) (p : Player), [Player.mk "1" "You" [2, 3]][j]? = some p →
        p.id = "1" →
        ∀ s : Int, p.scores[0]? = some s →
          ∃ q : Player,
            (updateScore [Player.mk "1" "You" [2, 3]] "1" 0 (-5))[j]? = some q ∧
            q.scores[0]? = some (max 0 (s + -5)))) :=
  ⟨by decide, updateScore_scores_nonneg [Player.mk "1" "You" [2, 3]] "1" 0 (-5)
    (by decide)⟩
